import Mathlib

/-!
Verification of the Boiler Assistant v2.0 combustion controller core.

This file gives a shallow embedding of the burn-phase state machine
(`BurnEngine.cpp`), the fan shaping layer (`FanControl.cpp`), the sensor
acquisition cache (`Sensors.cpp`) and the configuration validation and
edit commands (`EEPROMStorage.cpp`, `UI.cpp`), and proves properties of
these definitions.

Modelling conventions:
* C `double` values (temperatures) are modelled as `ℚ`; the IEEE NaN
  sentinel is modelled with `Option ℚ` where it matters (sensor cache).
* C `int` / `int16_t` values are modelled as `Int`; the explicit
  `(int16_t)` casts of the source are modelled by `toInt16`, and the
  `unsigned long` casts and arithmetic by `toUL` / `usub` (mod 2^32).
* C integer division truncates toward zero, hence `Int.tdiv`; a C
  `double`-to-`int` conversion also truncates toward zero, hence
  `qtrunc`.
* Each C function that mutates globals becomes a state-passing function
  returning the updated state together with its return value.
-/

-- ============================================================
-- Basic machine-arithmetic helpers
-- ============================================================

/-- Truncation of a rational toward zero: the semantics of a C `double`
to `int` conversion. -/
def qtrunc (q : ℚ) : Int := q.num.tdiv (q.den : Int)

/-- Conversion of a C signed integer value to `unsigned long`
(reduction mod 2^32), returning the represented nonnegative value. -/
def toUL (x : Int) : Nat := (x % (2 ^ 32)).toNat

/-- C `unsigned long` subtraction `a - b` (mod 2^32). -/
def usub (a b : Nat) : Nat := (((a : Int) - (b : Int)) % (2 ^ 32)).toNat

/-- Conversion of a C `int` value to `int16_t` (two's complement wrap). -/
def toInt16 (x : Int) : Int := (x + 32768) % 65536 - 32768

/-- Arduino `constrain(amt, low, high)` macro on `int`:
`(amt)<(low)?(low):((amt)>(high)?(high):(amt))`. -/
def constrainI (amt low high : Int) : Int :=
  if amt < low then low else if amt > high then high else amt

/-- Arduino `min(a, b)` macro on `int`: `(a)<(b)?(a):(b)`. -/
def minI (a b : Int) : Int := if a < b then a else b

-- ============================================================
-- Data model: burn phases, configuration, engine state
-- ============================================================

/-- The `BurnState` enum of `SystemState.h`. -/
inductive BurnState where
  | BURN_RAMP
  | BURN_HOLD
  | BURN_IDLE
  | BURN_COALBED
  | BURN_BOOST
  | BURN_SAFETY
deriving DecidableEq, Repr

/-- The persistent configuration globals of the sketch
(all `int16_t` in the source). -/
structure Config where
  exhaustSetpoint : Int
  boostTimeSeconds : Int
  deadbandF : Int
  clampMinPercent : Int
  clampMaxPercent : Int
  deadzoneFanMode : Int
  coalBedTimerMinutes : Int
  flueLowThreshold : Int
  flueRecoveryThreshold : Int
deriving DecidableEq, Repr

/-- The mutable globals of `BurnEngine.cpp`, together with the damper
relay output (active-LOW in hardware; modelled as `damperClosed`). -/
structure BEState where
  burnState : BurnState
  boostActive : Bool
  boostStartMs : Nat
  coalbedTimerActive : Bool
  coalbedStartMs : Nat
  holdTimerActive : Bool
  holdStartMs : Nat
  rampTimerActive : Bool
  rampStartMs : Nat
  damperClosed : Bool
deriving DecidableEq, Repr

/-- `HOLD_STABILITY_MS` of `BurnEngine.cpp` (5 seconds). -/
def HOLD_STABILITY_MS : Nat := 5000

/-- `RAMP_STABILITY_MS` of `BurnEngine.cpp` (3 seconds). -/
def RAMP_STABILITY_MS : Nat := 3000

/-- `(unsigned long)boostTimeSeconds * 1000UL` of `BurnEngine.cpp`. -/
def boostDurMs (cfg : Config) : Nat := toUL cfg.boostTimeSeconds * 1000 % 2 ^ 32

/-- `(unsigned long)coalBedTimerMinutes * 60UL * 1000UL`
of `BurnEngine.cpp`. -/
def coalbedRequiredMs (cfg : Config) : Nat :=
  toUL cfg.coalBedTimerMinutes * 60 * 1000 % 2 ^ 32

/-- The HOLD fan curve of `burnengine_compute` (BurnEngine.cpp lines
250-274), on `error = exhaustSetpoint - smoothExh` (a C `double`).
The assignments `int fan = ...` truncate the `double` expression. -/
def holdFanCurve (cfg : Config) (error : ℚ) : Int :=
  if error ≤ 5 then cfg.clampMinPercent
  else if error ≤ 25 then
    let fan := qtrunc ((cfg.clampMinPercent : ℚ) + (error - 5) * 2)
    let fan := minI fan 80
    constrainI fan cfg.clampMinPercent cfg.clampMaxPercent
  else
    let fan := qtrunc ((50 : ℚ) + (error - 25) * 2)
    let fan := if error ≤ 40 then minI fan 80 else fan
    constrainI fan cfg.clampMinPercent 100

/-- The COALBED ENTRY LOGIC section of `burnengine_compute`
(BurnEngine.cpp lines 134-156). -/
def coalbedEntry (cfg : Config) (s1 : BEState) (now : Nat) (smoothExh : ℚ) :
    BEState :=
  if smoothExh < (cfg.flueLowThreshold : ℚ) then
    let s1' := if s1.coalbedTimerActive then s1
               else { s1 with coalbedTimerActive := true, coalbedStartMs := now }
    if usub now s1'.coalbedStartMs ≥ coalbedRequiredMs cfg then
      { s1' with burnState := BurnState.BURN_COALBED,
                 coalbedTimerActive := false,
                 holdTimerActive := false, rampTimerActive := false }
    else s1'
  else { s1 with coalbedTimerActive := false }

/-- The NORMAL STATE MACHINE section of `burnengine_compute`
(BurnEngine.cpp lines 158-226). -/
def normalStateMachine (cfg : Config) (s2 : BEState) (now : Nat) (smoothExh : ℚ) :
    BEState :=
  match s2.burnState with
  | BurnState.BURN_RAMP =>
    if smoothExh ≥ (cfg.exhaustSetpoint : ℚ) - (cfg.deadbandF : ℚ) then
      let s2' := if s2.holdTimerActive then s2
                 else { s2 with holdTimerActive := true, holdStartMs := now }
      if usub now s2'.holdStartMs ≥ HOLD_STABILITY_MS then
        { s2' with burnState := BurnState.BURN_HOLD, holdTimerActive := false }
      else s2'
    else { s2 with holdTimerActive := false }
  | BurnState.BURN_HOLD =>
    if smoothExh < (cfg.exhaustSetpoint : ℚ) - (cfg.deadbandF : ℚ) * 2 then
      let s2' := if s2.rampTimerActive then s2
                 else { s2 with rampTimerActive := true, rampStartMs := now }
      if usub now s2'.rampStartMs ≥ RAMP_STABILITY_MS then
        { s2' with burnState := BurnState.BURN_RAMP,
                   rampTimerActive := false, holdTimerActive := false }
      else s2'
    else { s2 with rampTimerActive := false }
  | BurnState.BURN_COALBED =>
    if smoothExh > (cfg.exhaustSetpoint : ℚ) - (cfg.deadbandF : ℚ) then
      { s2 with burnState := BurnState.BURN_RAMP,
                holdTimerActive := false, rampTimerActive := false }
    else s2
  | _ => s2

/-- The DAMPER CONTROL and FAN DEMAND sections of `burnengine_compute`
(BurnEngine.cpp lines 228-286). -/
def burnengine_finalize (cfg : Config) (s3 : BEState) (smoothExh : ℚ) :
    BEState × Int :=
  let s4 := if s3.burnState = BurnState.BURN_IDLE
            then { s3 with damperClosed := true }
            else { s3 with damperClosed := false }
  let demand : Int :=
    if s3.burnState = BurnState.BURN_BOOST then 100
    else if s3.burnState = BurnState.BURN_RAMP then 100
    else if s3.burnState = BurnState.BURN_HOLD then
      holdFanCurve cfg ((cfg.exhaustSetpoint : ℚ) - smoothExh)
    else 0
  (s4, demand)

/-- `burnengine_compute(smoothExh)` of `BurnEngine.cpp`: one control
tick of the burn-phase state machine.  Returns the updated state
(including the damper command) and the raw fan demand (the C return
value). -/
def burnengine_compute (cfg : Config) (s0 : BEState) (now : Nat) (smoothExh : ℚ) :
    BEState × Int :=
  -- SAFETY OVERRIDE
  if s0.burnState = BurnState.BURN_SAFETY then
    ({ s0 with boostActive := false, coalbedTimerActive := false,
               holdTimerActive := false, rampTimerActive := false,
               damperClosed := true }, 0)
  -- BOOST MODE (early return while the window is open)
  else if s0.boostActive ∧ usub now s0.boostStartMs < boostDurMs cfg then
    ({ s0 with burnState := BurnState.BURN_BOOST, damperClosed := false }, 100)
  else
    -- BOOST expired → go to RAMP
    let s1 := if s0.boostActive
              then { s0 with boostActive := false, burnState := BurnState.BURN_RAMP }
              else s0
    burnengine_finalize cfg
      (normalStateMachine cfg (coalbedEntry cfg s1 now smoothExh) now smoothExh)
      smoothExh

-- ============================================================
-- Fan shaping layer (FanControl.cpp)
-- ============================================================

/-- The internal memory of `FanControl.cpp`: `lastFan`, `fanOn`,
`prevBurnState`. -/
structure FCState where
  lastFan : Int
  fanOn : Bool
  prevBurnState : BurnState
deriving DecidableEq, Repr

/-- `fancontrol_handleStateChange()` of `FanControl.cpp`. -/
def fancontrol_handleStateChange (bs : BurnState) (s : FCState) : FCState :=
  if bs ≠ s.prevBurnState then
    if bs = BurnState.BURN_BOOST ∨ bs = BurnState.BURN_IDLE ∨
       bs = BurnState.BURN_SAFETY then
      { lastFan := 0, fanOn := false, prevBurnState := bs }
    else { s with prevBurnState := bs }
  else s

/-- `fan_compute(demand)` of `FanControl.cpp`, reading the global
`burnState` (argument `bs`).  Returns the updated memory and the final
fan percentage. -/
def fan_compute (cfg : Config) (bs : BurnState) (s0 : FCState) (demand : Int) :
    FCState × Int :=
  let s := fancontrol_handleStateChange bs s0
  -- SAFETY OVERRIDE — fan OFF, no exceptions
  if bs = BurnState.BURN_SAFETY then
    ({ s with lastFan := 0, fanOn := false }, 0)
  -- BOOST OVERRIDE — fan 100%
  else if bs = BurnState.BURN_BOOST then
    ({ s with lastFan := 100, fanOn := true }, 100)
  else
    -- 1) Smooth raw demand FIRST
    let fan0 := (s.lastFan * 3 + demand).tdiv 4
    let s1 := { s with lastFan := fan0 }
    -- 2) Clamp max
    let fan1 := if fan0 > cfg.clampMaxPercent then cfg.clampMaxPercent else fan0
    -- 3) Deadzone Fan: ON → Clamp Mode (fan never turns off)
    if cfg.deadzoneFanMode = 1 then
      (s1, if fan1 < cfg.clampMinPercent then cfg.clampMinPercent else fan1)
    -- 4) Deadzone Fan: OFF → Hysteresis Mode (fan can turn off)
    else
      let onThreshold := cfg.clampMinPercent + 10
      let offThreshold := cfg.clampMinPercent
      let on1 := if ¬ s1.fanOn ∧ fan1 > onThreshold then true else s1.fanOn
      let on2 := if on1 ∧ fan1 < offThreshold then false else on1
      ({ s1 with fanOn := on2 }, if on2 then fan1 else 0)

-- ============================================================
-- Sensor acquisition (Sensors.cpp)
-- ============================================================

/-- The mutable cache of `Sensors.cpp`: `lastTCRead` and
`lastTCValueF` (the `NAN` sentinel is modelled as `none`). -/
structure SensorState where
  lastTCRead : Nat
  lastTCValueF : Option ℚ
deriving DecidableEq, Repr

/-- The sign-extended 14-bit thermocouple field of a MAX31855 frame
(bits 31..18): `int16_t tcData = (raw >> 18) & 0x3FFF;` followed by
`tcData |= 0xC000` when bit 13 is set (Sensors.cpp lines 113-119). -/
def max31855tcData (raw : Nat) : Int :=
  let n := (raw >>> 18) &&& 0x3FFF
  if n &&& 0x2000 ≠ 0 then (n : Int) - 16384 else (n : Int)

/-- `tempF` as computed by `readMAX31855_F`:
`tempC = tcData * 0.25; tempF = tempC * 9.0 / 5.0 + 32.0`. -/
def max31855tempF (raw : Nat) : ℚ :=
  (max31855tcData raw : ℚ) * (1 / 4) * 9 / 5 + 32

/-- `readMAX31855_F()` of `Sensors.cpp` as a function of the 32-bit
frame: `NAN` (here `none`) on the fault bit (`raw & 0x00010000`) or an
implausible reading outside −100°F…2000°F. -/
def readMAX31855_F (raw : Nat) : Option ℚ :=
  if raw &&& 0x10000 ≠ 0 then none
  else
    let tempF := max31855tempF raw
    if tempF < -100 ∨ tempF > 2000 then none
    else some tempF

/-- `exhaust_readF_cached()` of `Sensors.cpp`: the 500 ms cadence gate,
validity check and 150°F spike rejection around the raw hardware
read (the frame `raw` stands for the bytes the SPI transfer would
deliver on this attempt). -/
def exhaust_readF_cached (s : SensorState) (now : Nat) (raw : Nat) :
    SensorState × Option ℚ :=
  if usub now s.lastTCRead ≥ 500 then
    let s1 : SensorState := { s with lastTCRead := now }
    match readMAX31855_F raw with
    | none => (s1, s1.lastTCValueF)
    | some t =>
      match s1.lastTCValueF with
      | some last =>
        if |t - last| > 150 then (s1, some last)
        else ({ s1 with lastTCValueF := some t }, some t)
      | none => ({ s1 with lastTCValueF := some t }, some t)
  else (s, s.lastTCValueF)

-- ============================================================
-- Configuration validation and edit commands
-- (EEPROMStorage.cpp, UI.cpp)
-- ============================================================

/-- The default configuration of the sketch (the values written by
`eeprom_init` on a version mismatch). -/
def cfgDefault : Config :=
  { exhaustSetpoint := 350, boostTimeSeconds := 30, deadbandF := 25,
    clampMinPercent := 10, clampMaxPercent := 100, deadzoneFanMode := 0,
    coalBedTimerMinutes := 30, flueLowThreshold := 250,
    flueRecoveryThreshold := 300 }

/-- `validateSettings()` of `EEPROMStorage.cpp`: sequential range
repair of every persistent parameter, then repair of the two coupled
invariants. -/
def validateSettings (c : Config) : Config :=
  let c := if c.exhaustSetpoint < 100 ∨ c.exhaustSetpoint > 900 then
             { c with exhaustSetpoint := 350 } else c
  let c := if c.boostTimeSeconds < 0 ∨ c.boostTimeSeconds > 1800 then
             { c with boostTimeSeconds := 30 } else c
  let c := if c.deadbandF < 0 ∨ c.deadbandF > 200 then
             { c with deadbandF := 25 } else c
  let c := if c.clampMinPercent < 0 ∨ c.clampMinPercent > 100 then
             { c with clampMinPercent := 10 } else c
  let c := if c.clampMaxPercent < 0 ∨ c.clampMaxPercent > 100 then
             { c with clampMaxPercent := 100 } else c
  let c := if c.clampMinPercent > c.clampMaxPercent then
             { c with clampMinPercent := c.clampMaxPercent } else c
  let c := if c.deadzoneFanMode ≠ 0 ∧ c.deadzoneFanMode ≠ 1 then
             { c with deadzoneFanMode := 0 } else c
  let c := if c.coalBedTimerMinutes < 0 ∨ c.coalBedTimerMinutes > 720 then
             { c with coalBedTimerMinutes := 30 } else c
  let c := if c.flueLowThreshold < 0 ∨ c.flueLowThreshold > 900 then
             { c with flueLowThreshold := 250 } else c
  let c := if c.flueRecoveryThreshold < 0 ∨ c.flueRecoveryThreshold > 900 then
             { c with flueRecoveryThreshold := c.flueLowThreshold + 50 } else c
  let c := if c.flueRecoveryThreshold < c.flueLowThreshold + 10 then
             { c with flueRecoveryThreshold := c.flueLowThreshold + 50 } else c
  c

/-- UI-side input normalization, the sequential
`if (v < lo) v = lo; if (v > hi) v = hi;` pattern of `ui_handleKey`. -/
def uiClamp (lo hi v : Int) : Int :=
  let v := if v < lo then lo else v
  if v > hi then hi else v

/-- The `UI_SETPOINT` commit of `ui_handleKey` together with
`eeprom_saveSetpoint`: normalize to 200-900, assign, validate. -/
def ui_commitSetpoint (c : Config) (v : Int) : Config :=
  validateSettings { c with exhaustSetpoint := toInt16 (uiClamp 200 900 v) }

/-- The `UI_BOOSTTIME` commit with `eeprom_saveBoostTime`
(bounds 5-300). -/
def ui_commitBoostTime (c : Config) (v : Int) : Config :=
  validateSettings { c with boostTimeSeconds := toInt16 (uiClamp 5 300 v) }

/-- The `UI_DEADBAND` commit with `eeprom_saveDeadband`
(bounds 1-100). -/
def ui_commitDeadband (c : Config) (v : Int) : Config :=
  validateSettings { c with deadbandF := toInt16 (uiClamp 1 100 v) }

/-- The `UI_CLAMP_MIN` commit with `eeprom_saveClampMin`
(bounds 0-100). -/
def ui_commitClampMin (c : Config) (v : Int) : Config :=
  validateSettings { c with clampMinPercent := toInt16 (uiClamp 0 100 v) }

/-- The `UI_CLAMP_MAX` commit with `eeprom_saveClampMax`
(bounds 0-100). -/
def ui_commitClampMax (c : Config) (v : Int) : Config :=
  validateSettings { c with clampMaxPercent := toInt16 (uiClamp 0 100 v) }

/-- The `UI_CLAMP_MENU` key `3` toggle with `eeprom_saveDeadzone`. -/
def ui_commitDeadzoneToggle (c : Config) : Config :=
  let v : Int := if c.deadzoneFanMode ≠ 0 then 0 else 1
  validateSettings { c with deadzoneFanMode := if v ≠ 0 then 1 else 0 }

/-- The `UI_COALBED_TIMER` commit with `eeprom_saveCoalBedTimer`
(bounds 5-60). -/
def ui_commitCoalBedTimer (c : Config) (v : Int) : Config :=
  validateSettings { c with coalBedTimerMinutes := toInt16 (uiClamp 5 60 v) }

/-- The `UI_FLUE_LOW` commit with `eeprom_saveFlueLow`
(bounds 200-500). -/
def ui_commitFlueLow (c : Config) (v : Int) : Config :=
  validateSettings { c with flueLowThreshold := toInt16 (uiClamp 200 500 v) }

/-- The `UI_FLUE_REC` commit with `eeprom_saveFlueRecovery`:
raised to `flueLowThreshold + 10`, capped at 600, assign, validate. -/
def ui_commitFlueRec (c : Config) (v : Int) : Config :=
  validateSettings
    { c with flueRecoveryThreshold := toInt16 (uiClamp (c.flueLowThreshold + 10) 600 v) }

/-- `eeprom_init()` of `EEPROMStorage.cpp` on the configuration
values: on a version mismatch the defaults are installed, otherwise
the loaded values are kept; either way `validateSettings` runs and
`eeprom_saveAll` (which validates again) completes initialization. -/
def eeprom_init (loaded : Config) (versionMatch : Bool) : Config :=
  if versionMatch then validateSettings (validateSettings loaded)
  else validateSettings (validateSettings cfgDefault)

/-- The two coupled configuration invariants of the specification:
`clampMinPercent ≤ clampMaxPercent` and
`flueRecoveryThreshold ≥ flueLowThreshold + 10`. -/
def ConfigInvariant (c : Config) : Prop :=
  c.clampMinPercent ≤ c.clampMaxPercent ∧
  c.flueRecoveryThreshold ≥ c.flueLowThreshold + 10

-- ============================================================
-- Multi-tick runs of the engine
-- ============================================================

/-- The engine state after a sequence of control ticks, each given as
a pair (millis timestamp, smoothed temperature). -/
def burnengine_run (cfg : Config) (s : BEState) (l : List (Nat × ℚ)) : BEState :=
  l.foldl (fun st p => (burnengine_compute cfg st p.1 p.2).1) s

-- ============================================================
-- Specification-side definitions (for refinement comparisons)
-- ============================================================

/-- The clamping and deadzone/hysteresis tail of the fan shaping layer
applied to an already-smoothed value `sm`, with hysteresis memory
`fanOnPrev` (FanControl.cpp lines 107-140). -/
def fanShapeAfterSmooth (cfg : Config) (fanOnPrev : Bool) (sm : Int) : Int :=
  let fan1 := if sm > cfg.clampMaxPercent then cfg.clampMaxPercent else sm
  if cfg.deadzoneFanMode = 1 then
    if fan1 < cfg.clampMinPercent then cfg.clampMinPercent else fan1
  else
    let on1 := if ¬ fanOnPrev ∧ fan1 > cfg.clampMinPercent + 10 then true else fanOnPrev
    let on2 := if on1 ∧ fan1 < cfg.clampMinPercent then false else on1
    if on2 then fan1 else 0

/-- The smoothed-then-max-clamped value of one `fan_compute` tick as a
function of the smoothing memory and the raw demand
(FanControl.cpp lines 104-111). -/
def fanSmoothClamp (cfg : Config) (lastFan demand : Int) : Int :=
  let fan0 := (lastFan * 3 + demand).tdiv 4
  if fan0 > cfg.clampMaxPercent then cfg.clampMaxPercent else fan0

/-- "clamped into [lo, hi]" on rationals, with the same tie-breaking as
the Arduino `constrain` macro. -/
def qconstrain (x lo hi : ℚ) : ℚ :=
  if x < lo then lo else if x > hi then hi else x

/-- The HOLD fan curve exactly as the specification words it (claim C6):
real arithmetic on `error`, a soft cap at 80 and clamping, with no
intermediate truncation.  To be compared with `holdFanCurve`, which is
translated from the source. -/
def holdCurveSpec (cfg : Config) (error : ℚ) : ℚ :=
  if error ≤ 5 then (cfg.clampMinPercent : ℚ)
  else if error ≤ 25 then
    qconstrain (min ((cfg.clampMinPercent : ℚ) + (error - 5) * 2) 80)
      (cfg.clampMinPercent : ℚ) (cfg.clampMaxPercent : ℚ)
  else
    let fan : ℚ := 50 + (error - 25) * 2
    let fan := if error ≤ 40 then min fan 80 else fan
    qconstrain fan (cfg.clampMinPercent : ℚ) 100

-- ============================================================
-- Concrete values used by witnesses
-- ============================================================

/-- C2 counterexample configuration: the defaults (hysteresis mode,
`clampMin = 10`, `clampMax = 100`). -/
def cfgC2 : Config := cfgDefault

/-- C4 counterexample configuration: defaults except a coal-bed entry
duration of 0 minutes (accepted by `validateSettings`, whose range
check is 0-720). -/
def cfgC4 : Config := { cfgDefault with coalBedTimerMinutes := 0 }

/-- C5 counterexample configuration: a flue-low threshold above
`setpoint - deadband` (both values are inside the documented UI
bounds: flue-low 200-500, setpoint 200-900). -/
def cfgC5 : Config := { cfgDefault with exhaustSetpoint := 200, flueLowThreshold := 500 }

/-- C7 counterexample configuration: constant-airflow (deadzone) mode
with `clampMinPercent = 0` (0 is accepted by both the UI bounds and
`validateSettings`). -/
def cfgC7 : Config := { cfgDefault with deadzoneFanMode := 1, clampMinPercent := 0 }

-- ============================================================
-- The disputed claims, formalized exactly as stated
-- ============================================================

/-- Claim C2 as stated: outside BOOST and SAFETY, each tick's smoothed
demand is `(3 × previous applied value + raw) / 4` where "previous
applied value" is the value `fan_compute` returned on the previous
tick, followed by the max-clamp and the deadzone/hysteresis step. -/
def ClaimC2AsStated : Prop :=
  ∀ (cfg : Config) (bs1 bs2 : BurnState) (s0 : FCState) (d1 d2 : Int),
    bs2 ≠ BurnState.BURN_BOOST → bs2 ≠ BurnState.BURN_SAFETY →
    (fan_compute cfg bs2 (fan_compute cfg bs1 s0 d1).1 d2).2
      = fanShapeAfterSmooth cfg (fan_compute cfg bs1 s0 d1).1.fanOn
          ((3 * (fan_compute cfg bs1 s0 d1).2 + d2).tdiv 4)

/-- Claim C4 as stated: while the boost window is open the tick yields
phase BOOST, open damper, raw demand 100 and final fan 100; on the
first tick at or past the configured duration the window closes and
the phase (at the end of the tick) is RAMP. -/
def ClaimC4AsStated : Prop :=
  ∀ (cfg : Config) (s : BEState) (now : Nat) (T : ℚ) (fs : FCState),
    s.burnState ≠ BurnState.BURN_SAFETY → s.boostActive = true →
    ((usub now s.boostStartMs < boostDurMs cfg →
        (burnengine_compute cfg s now T).1.burnState = BurnState.BURN_BOOST ∧
        (burnengine_compute cfg s now T).1.damperClosed = false ∧
        (burnengine_compute cfg s now T).2 = 100 ∧
        (fan_compute cfg (burnengine_compute cfg s now T).1.burnState fs
          (burnengine_compute cfg s now T).2).2 = 100) ∧
     (usub now s.boostStartMs ≥ boostDurMs cfg →
        (burnengine_compute cfg s now T).1.boostActive = false ∧
        (burnengine_compute cfg s now T).1.burnState = BurnState.BURN_RAMP))

/-- Claim C5 as stated: outside SAFETY and outside an active boost
window, once the running coal-bed timer has seen the smoothed
temperature below `flueLowThreshold` for the configured duration, the
tick ends in phase COALBED with the HOLD and RAMP timers cleared. -/
def ClaimC5AsStated : Prop :=
  ∀ (cfg : Config) (s : BEState) (now : Nat) (T : ℚ),
    s.burnState ≠ BurnState.BURN_SAFETY →
    ¬(s.boostActive = true ∧ usub now s.boostStartMs < boostDurMs cfg) →
    T < (cfg.flueLowThreshold : ℚ) →
    s.coalbedTimerActive = true →
    usub now s.coalbedStartMs ≥ coalbedRequiredMs cfg →
    (burnengine_compute cfg s now T).1.burnState = BurnState.BURN_COALBED ∧
    (burnengine_compute cfg s now T).1.holdTimerActive = false ∧
    (burnengine_compute cfg s now T).1.rampTimerActive = false

/-- Claim C7 as stated (deadzone-on half): outside BOOST and SAFETY,
with deadzone-fan-mode on, the final fan percentage is floored at
clamp-minimum and is never 0. -/
def ClaimC7AsStated : Prop :=
  ∀ (cfg : Config) (bs : BurnState) (s : FCState) (d : Int),
    bs ≠ BurnState.BURN_BOOST → bs ≠ BurnState.BURN_SAFETY →
    cfg.deadzoneFanMode = 1 →
    (fan_compute cfg bs s d).2 ≥ cfg.clampMinPercent ∧
    (fan_compute cfg bs s d).2 ≠ 0

-- ============================================================
-- Theorems
-- ============================================================

/-- C1: On a tick that begins in phase SAFETY, `burnengine_compute`
deactivates the boost window and all stability timers, commands the
damper closed and returns raw demand 0; the phase stays SAFETY, and
`fan_compute` on that same tick (reading the updated phase) returns 0
and clears its smoothing/hysteresis memory — regardless of prior
timers, fan memory or raw demand. -/
theorem claimC1 (cfg : Config) (s : BEState) (now : Nat) (T : ℚ)
    (fs : FCState) (d : Int)
    (hS : s.burnState = BurnState.BURN_SAFETY) :
    (burnengine_compute cfg s now T).1.boostActive = false ∧
    (burnengine_compute cfg s now T).1.coalbedTimerActive = false ∧
    (burnengine_compute cfg s now T).1.holdTimerActive = false ∧
    (burnengine_compute cfg s now T).1.rampTimerActive = false ∧
    (burnengine_compute cfg s now T).1.damperClosed = true ∧
    (burnengine_compute cfg s now T).2 = 0 ∧
    (burnengine_compute cfg s now T).1.burnState = BurnState.BURN_SAFETY ∧
    (fan_compute cfg (burnengine_compute cfg s now T).1.burnState fs d).2 = 0 ∧
    (fan_compute cfg (burnengine_compute cfg s now T).1.burnState fs d).1.lastFan = 0 ∧
    (fan_compute cfg (burnengine_compute cfg s now T).1.burnState fs d).1.fanOn = false := by
  simp [burnengine_compute, hS, fan_compute, fancontrol_handleStateChange]

/-- C1 witness: the SAFETY tick evaluated at a concrete state with all
timers active, dirty fan memory and nonzero demand. -/
theorem claimC1_witness :
    (BEState.mk BurnState.BURN_SAFETY true 7 true 7 true 7 true 7 false).burnState
      = BurnState.BURN_SAFETY ∧
    (burnengine_compute cfgDefault
      (BEState.mk BurnState.BURN_SAFETY true 7 true 7 true 7 true 7 false) 9000 330).2 = 0 := by
  refine ⟨rfl, ?_⟩
  exact (claimC1 cfgDefault
    (BEState.mk BurnState.BURN_SAFETY true 7 true 7 true 7 true 7 false) 9000 330
    (FCState.mk 55 true BurnState.BURN_HOLD) 77 rfl).2.2.2.2.2.1

-- ------------------------------------------------------------
-- Helper lemmas about the engine step
-- ------------------------------------------------------------

theorem burnengine_finalize_fst_burnState (cfg : Config) (s : BEState) (T : ℚ) :
    (burnengine_finalize cfg s T).1.burnState = s.burnState := by
  unfold burnengine_finalize
  dsimp only
  split <;> rfl

theorem burnengine_finalize_snd_hold (cfg : Config) (s : BEState) (T : ℚ)
    (h : s.burnState = BurnState.BURN_HOLD) :
    (burnengine_finalize cfg s T).2
      = holdFanCurve cfg ((cfg.exhaustSetpoint : ℚ) - T) := by
  simp [burnengine_finalize, h]

/-- If a tick of `burnengine_compute` ends in phase HOLD, the raw fan
demand it returns is the HOLD fan curve evaluated at
`error = setpoint - smoothExh`. -/
theorem burnengine_hold_demand (cfg : Config) (s : BEState) (now : Nat) (T : ℚ)
    (hH : (burnengine_compute cfg s now T).1.burnState = BurnState.BURN_HOLD) :
    (burnengine_compute cfg s now T).2
      = holdFanCurve cfg ((cfg.exhaustSetpoint : ℚ) - T) := by
  unfold burnengine_compute at hH ⊢
  by_cases hS : s.burnState = BurnState.BURN_SAFETY
  · rw [if_pos hS] at hH
    simp [hS] at hH
  · rw [if_neg hS] at hH ⊢
    by_cases hB : s.boostActive = true ∧ usub now s.boostStartMs < boostDurMs cfg
    · rw [if_pos hB] at hH
      simp at hH
    · rw [if_neg hB] at hH ⊢
      dsimp only at hH ⊢
      rw [burnengine_finalize_fst_burnState] at hH
      exact burnengine_finalize_snd_hold _ _ _ hH

-- ------------------------------------------------------------
-- Cast lemmas used for the HOLD-curve refinement
-- ------------------------------------------------------------

theorem qtrunc_intCast (n : ℤ) : qtrunc ((n : ℚ)) = n := by
  simp [qtrunc, Rat.num_intCast, Rat.den_intCast]

theorem minI_cast (a b : ℤ) : ((minI a b : ℤ) : ℚ) = min (a : ℚ) (b : ℚ) := by
  unfold minI
  split
  · next h => rw [min_eq_left (by exact_mod_cast h.le)]
  · next h => rw [min_eq_right (by exact_mod_cast (not_lt.mp h))]

theorem constrainI_cast (x lo hi : ℤ) :
    ((constrainI x lo hi : ℤ) : ℚ) = qconstrain (x : ℚ) (lo : ℚ) (hi : ℚ) := by
  simp only [constrainI, qconstrain, apply_ite (fun z : ℤ => (z : ℚ)), Int.cast_lt]

/-- C6: in phase HOLD the raw fan demand follows the specification's
piecewise curve on `error = setpoint - smoothed`: it refines
`holdCurveSpec` at every integer error, and at the spec's three sample
points `error = 5, 25, 50` it equals `clampMin`,
`constrain(min(clampMin+40, 80), clampMin, clampMax)` and `100`
(the latter provided `clampMin ≤ 100`). -/
theorem claimC6 (cfg : Config) (s : BEState) (now : Nat) (T : ℚ)
    (hH : (burnengine_compute cfg s now T).1.burnState = BurnState.BURN_HOLD) :
    ((∃ k : ℤ, (cfg.exhaustSetpoint : ℚ) - T = (k : ℚ)) →
      (((burnengine_compute cfg s now T).2 : ℤ) : ℚ)
        = holdCurveSpec cfg ((cfg.exhaustSetpoint : ℚ) - T)) ∧
    ((cfg.exhaustSetpoint : ℚ) - T = 5 →
      (burnengine_compute cfg s now T).2 = cfg.clampMinPercent) ∧
    ((cfg.exhaustSetpoint : ℚ) - T = 25 →
      (burnengine_compute cfg s now T).2
        = constrainI (minI (cfg.clampMinPercent + 40) 80)
            cfg.clampMinPercent cfg.clampMaxPercent) ∧
    ((cfg.exhaustSetpoint : ℚ) - T = 50 → cfg.clampMinPercent ≤ 100 →
      (burnengine_compute cfg s now T).2 = 100) := by
  rw [burnengine_hold_demand cfg s now T hH]
  refine ⟨?_, ?_, ?_, ?_⟩
  · rintro ⟨k, hk⟩
    rw [hk]
    unfold holdFanCurve holdCurveSpec
    by_cases h5 : (k : ℚ) ≤ 5
    · simp [h5]
    · by_cases h25 : (k : ℚ) ≤ 25
      · simp only [h5, h25, if_true, if_false]
        rw [show (cfg.clampMinPercent : ℚ) + ((k : ℚ) - 5) * 2
              = ((cfg.clampMinPercent + (k - 5) * 2 : ℤ) : ℚ) by push_cast; ring]
        rw [qtrunc_intCast, constrainI_cast, minI_cast]
        norm_num
      · by_cases h40 : (k : ℚ) ≤ 40
        · simp only [h5, h25, h40, if_true, if_false]
          rw [show (50 : ℚ) + ((k : ℚ) - 25) * 2
                = ((50 + (k - 25) * 2 : ℤ) : ℚ) by push_cast; ring]
          rw [qtrunc_intCast, constrainI_cast, minI_cast]
          norm_num
        · simp only [h5, h25, h40, if_true, if_false]
          rw [show (50 : ℚ) + ((k : ℚ) - 25) * 2
                = ((50 + (k - 25) * 2 : ℤ) : ℚ) by push_cast; ring]
          rw [qtrunc_intCast, constrainI_cast]
          norm_num
  · intro h; rw [h]; simp [holdFanCurve]
  · intro h; rw [h]
    unfold holdFanCurve
    norm_num
    rw [show (cfg.clampMinPercent : ℚ) + 40 = ((cfg.clampMinPercent + 40 : ℤ) : ℚ) by
      push_cast; ring]
    rw [qtrunc_intCast]
  · intro h hle; rw [h]
    unfold holdFanCurve
    norm_num
    rw [show (100 : ℚ) = ((100 : ℤ) : ℚ) by norm_num, qtrunc_intCast]
    unfold constrainI
    split
    · next hlt => omega
    · split
      · next hgt => omega
      · rfl

/-- C6 witness: a concrete HOLD tick at `setpoint = 350`, `T = 345`
(error 5) returning clamp-minimum 10. -/
theorem claimC6_witness :
    (burnengine_compute cfgDefault
      (BEState.mk BurnState.BURN_HOLD false 0 false 0 false 0 false 0 false)
      0 345).1.burnState = BurnState.BURN_HOLD ∧
    (burnengine_compute cfgDefault
      (BEState.mk BurnState.BURN_HOLD false 0 false 0 false 0 false 0 false)
      0 345).2 = 10 := by
  have hH : (burnengine_compute cfgDefault
      (BEState.mk BurnState.BURN_HOLD false 0 false 0 false 0 false 0 false)
      0 345).1.burnState = BurnState.BURN_HOLD := by
    norm_num [burnengine_compute, coalbedEntry, normalStateMachine,
      burnengine_finalize, cfgDefault, usub, boostDurMs, coalbedRequiredMs,
      toUL, RAMP_STABILITY_MS]
    decide
  refine ⟨hH, ?_⟩
  have h := (claimC6 cfgDefault
    (BEState.mk BurnState.BURN_HOLD false 0 false 0 false 0 false 0 false)
    0 345 hH).2.1 (by norm_num [cfgDefault])
  simpa [cfgDefault] using h

-- ------------------------------------------------------------
-- Fan shaping layer lemmas
-- ------------------------------------------------------------

/-- When the tick's phase is outside BOOST/SAFETY and is not a fresh
entry into IDLE, `fancontrol_handleStateChange` only records the phase
and leaves the smoothing/hysteresis memory intact. -/
theorem handleStateChange_no_reset (bs : BurnState) (s : FCState)
    (hB : bs ≠ BurnState.BURN_BOOST) (hS : bs ≠ BurnState.BURN_SAFETY)
    (hI : bs = BurnState.BURN_IDLE → s.prevBurnState = BurnState.BURN_IDLE) :
    fancontrol_handleStateChange bs s = { s with prevBurnState := bs } := by
  unfold fancontrol_handleStateChange
  by_cases h : bs = s.prevBurnState
  · rw [if_neg (not_not_intro h), h]
  · have hc : ¬(bs = BurnState.BURN_BOOST ∨ bs = BurnState.BURN_IDLE ∨
        bs = BurnState.BURN_SAFETY) := by
      rintro (h1 | h2 | h3)
      · exact hB h1
      · exact h (h2.trans (hI h2).symm)
      · exact hS h3
    rw [if_pos h, if_neg hc]

/-- C2 counterexample: in phase HOLD (hysteresis mode, defaults), with
memory `lastFan = 16, fanOn = false`, a tick of demand 16 returns 0
(fan held off), and the next tick of demand 100 returns 37
`= (3·16+100)/4`, not 25 `= (3·0+100)/4` as the claim's "previous
applied value" reading predicts. -/
theorem claimC2_counterexample : ¬ ClaimC2AsStated := fun h =>
  absurd
    (h cfgC2 BurnState.BURN_HOLD BurnState.BURN_HOLD
      (FCState.mk 16 false BurnState.BURN_HOLD) 16 100 (by decide) (by decide))
    (by decide)

/-- C2 amended: outside BOOST and SAFETY (and barring the memory reset
of a tick that freshly enters IDLE), the tick smooths toward the
layer's internal smoothing memory `lastFan` — the previous smoothed
pre-clamp value, not the previously returned percentage — writes the
smoothed value back to `lastFan`, and then applies the max-clamp
followed by the deadzone/hysteresis step. -/
theorem claimC2_amended (cfg : Config) (bs : BurnState) (s : FCState) (d : Int)
    (hB : bs ≠ BurnState.BURN_BOOST) (hS : bs ≠ BurnState.BURN_SAFETY)
    (hI : bs = BurnState.BURN_IDLE → s.prevBurnState = BurnState.BURN_IDLE) :
    (fan_compute cfg bs s d).1.lastFan = (s.lastFan * 3 + d).tdiv 4 ∧
    (fan_compute cfg bs s d).2
      = fanShapeAfterSmooth cfg s.fanOn ((s.lastFan * 3 + d).tdiv 4) := by
  unfold fan_compute
  rw [handleStateChange_no_reset bs s hB hS hI]
  rw [if_neg hS, if_neg hB]
  unfold fanShapeAfterSmooth
  dsimp only
  constructor
  · split <;> rfl
  · split <;> rfl

/-- C2 witness for the amended claim: the second counterexample tick,
whose output 37 agrees with smoothing toward the internal memory. -/
theorem claimC2_witness :
    (BurnState.BURN_HOLD ≠ BurnState.BURN_BOOST) ∧
    (fan_compute cfgC2 BurnState.BURN_HOLD
        (FCState.mk 16 false BurnState.BURN_HOLD) 100).2
      = fanShapeAfterSmooth cfgC2 false ((16 * 3 + 100 : Int).tdiv 4) := by
  refine ⟨by decide, ?_⟩
  exact (claimC2_amended cfgC2 BurnState.BURN_HOLD
    (FCState.mk 16 false BurnState.BURN_HOLD) 100
    (by decide) (by decide) (by decide)).2

/-- C7 counterexample: with deadzone mode on and `clampMinPercent = 0`
(a value the UI accepts), a HOLD tick with zero memory and zero demand
returns a final fan percentage of 0, contradicting "is therefore
never 0". -/
theorem claimC7_counterexample : ¬ ClaimC7AsStated := fun h =>
  (h cfgC7 BurnState.BURN_HOLD (FCState.mk 0 false BurnState.BURN_HOLD) 0
      (by decide) (by decide) (by decide)).2 (by decide)

/-- C7 amended: outside BOOST and SAFETY (and barring the memory reset
of a tick freshly entering IDLE): with deadzone mode on the final
percentage is floored at clamp-minimum — hence nonzero whenever
clamp-minimum is positive; with deadzone mode off the fan turns on
only when the smoothed/clamped demand is strictly above
`clampMin + 10`, turns off only when it is strictly below `clampMin`,
and the returned percentage is 0 whenever the fan ends the tick off. -/
theorem claimC7_amended (cfg : Config) (bs : BurnState) (s : FCState) (d : Int)
    (hB : bs ≠ BurnState.BURN_BOOST) (hS : bs ≠ BurnState.BURN_SAFETY)
    (hI : bs = BurnState.BURN_IDLE → s.prevBurnState = BurnState.BURN_IDLE) :
    (cfg.deadzoneFanMode = 1 →
      cfg.clampMinPercent ≤ (fan_compute cfg bs s d).2 ∧
      (0 < cfg.clampMinPercent → (fan_compute cfg bs s d).2 ≠ 0)) ∧
    (cfg.deadzoneFanMode ≠ 1 →
      (s.fanOn = false → (fan_compute cfg bs s d).1.fanOn = true →
        cfg.clampMinPercent + 10 < fanSmoothClamp cfg s.lastFan d) ∧
      (s.fanOn = true → (fan_compute cfg bs s d).1.fanOn = false →
        fanSmoothClamp cfg s.lastFan d < cfg.clampMinPercent) ∧
      ((fan_compute cfg bs s d).1.fanOn = false → (fan_compute cfg bs s d).2 = 0)) := by
  unfold fan_compute
  rw [handleStateChange_no_reset bs s hB hS hI]
  rw [if_neg hS, if_neg hB]
  unfold fanSmoothClamp
  dsimp only
  by_cases hdz : cfg.deadzoneFanMode = 1
  · rw [if_pos hdz]
    refine ⟨fun _ => ⟨?_, fun hpos => ?_⟩, fun hdz' => absurd hdz hdz'⟩
    · dsimp only
      split_ifs <;> omega
    · dsimp only
      split_ifs <;> omega
  · rw [if_neg hdz]
    refine ⟨fun hdz1 => absurd hdz1 hdz, fun _ => ⟨?_, ?_, ?_⟩⟩
    · intro hOff
      dsimp only
      simp only [hOff]
      split_ifs <;> simp_all
    · intro hOn
      dsimp only
      simp only [hOn]
      split_ifs <;> simp_all
    · intro hFanOff
      dsimp only at hFanOff ⊢
      rw [hFanOff]
      rfl

/-- C7 witness for the amended claim: with deadzone mode on and the
default `clampMin = 10`, a HOLD tick with zero memory and zero demand
returns at least 10 and is nonzero. -/
theorem claimC7_witness :
    ({ cfgDefault with deadzoneFanMode := 1 }.deadzoneFanMode = (1 : Int)) ∧
    ({ cfgDefault with deadzoneFanMode := 1 }.clampMinPercent ≤
      (fan_compute { cfgDefault with deadzoneFanMode := 1 } BurnState.BURN_HOLD
        (FCState.mk 0 false BurnState.BURN_HOLD) 0).2) ∧
    (fan_compute { cfgDefault with deadzoneFanMode := 1 } BurnState.BURN_HOLD
        (FCState.mk 0 false BurnState.BURN_HOLD) 0).2 ≠ 0 := by
  have h := (claimC7_amended { cfgDefault with deadzoneFanMode := 1 }
    BurnState.BURN_HOLD (FCState.mk 0 false BurnState.BURN_HOLD) 0
    (by decide) (by decide) (by decide)).1 (by decide)
  exact ⟨by decide, h.1, h.2 (by decide)⟩

-- ------------------------------------------------------------
-- Unsigned-arithmetic lemmas
-- ------------------------------------------------------------

theorem usub_self (a : Nat) : usub a a = 0 := by
  unfold usub
  rw [Int.sub_self]
  decide

theorem usub_eq_sub (a b : Nat) (hba : b ≤ a) (ha : a < 2 ^ 32) :
    usub a b = a - b := by
  unfold usub
  rw [show ((2 : Int) ^ 32) = 4294967296 by norm_num]
  rw [show ((2 : Nat) ^ 32) = 4294967296 by norm_num] at ha
  omega

theorem burnengine_finalize_fst (cfg : Config) (s : BEState) (T : ℚ) :
    (burnengine_finalize cfg s T).1
      = { s with damperClosed := if s.burnState = BurnState.BURN_IDLE
                                 then true else false } := by
  unfold burnengine_finalize
  dsimp only
  split <;> rfl

-- ------------------------------------------------------------
-- C4: the boost window
-- ------------------------------------------------------------

/-- C4 counterexample: with a coal-bed entry duration of 0 minutes (a
value `validateSettings` accepts) and a cold flue, the tick on which
the boost window expires (30000 ms after a 30 s boost started) ends in
phase COALBED, not RAMP: the coal-bed entry logic runs on the expiry
tick and immediately overrides the freshly set RAMP phase. -/
theorem claimC4_counterexample : ¬ ClaimC4AsStated := by
  intro h
  have h2 := (h cfgC4
    (BEState.mk BurnState.BURN_BOOST true 0 false 0 false 0 false 0 false)
    30000 100 (FCState.mk 0 false BurnState.BURN_RAMP) (by decide) rfl).2 (by decide)
  have hC : (burnengine_compute cfgC4
      (BEState.mk BurnState.BURN_BOOST true 0 false 0 false 0 false 0 false)
      30000 100).1.burnState = BurnState.BURN_COALBED := by
    norm_num [burnengine_compute, coalbedEntry, normalStateMachine,
      burnengine_finalize, cfgC4, cfgDefault, usub, boostDurMs,
      coalbedRequiredMs, toUL]
    decide
  rw [h2.2] at hC
  exact absurd hC (by decide)

/-- C4 amended: while the boost window is open (and the phase is not
SAFETY) the tick yields phase BOOST, open damper, raw demand 100 and
final fan 100 independent of temperature; on the expiry tick the boost
window closes, and the phase becomes RAMP provided neither the
coal-bed entry nor a stale HOLD-stability timer fires on that same
tick (here: coal-bed and HOLD timers inactive and a positive coal-bed
duration). -/
theorem claimC4_amended (cfg : Config) (s : BEState) (now : Nat) (T : ℚ)
    (fs : FCState)
    (hS : s.burnState ≠ BurnState.BURN_SAFETY) (hAct : s.boostActive = true) :
    (usub now s.boostStartMs < boostDurMs cfg →
      (burnengine_compute cfg s now T).1.burnState = BurnState.BURN_BOOST ∧
      (burnengine_compute cfg s now T).1.damperClosed = false ∧
      (burnengine_compute cfg s now T).2 = 100 ∧
      (fan_compute cfg (burnengine_compute cfg s now T).1.burnState fs
        (burnengine_compute cfg s now T).2).2 = 100) ∧
    (usub now s.boostStartMs ≥ boostDurMs cfg →
      s.coalbedTimerActive = false → s.holdTimerActive = false →
      0 < coalbedRequiredMs cfg →
      (burnengine_compute cfg s now T).1.boostActive = false ∧
      (burnengine_compute cfg s now T).1.burnState = BurnState.BURN_RAMP) := by
  constructor
  · intro hlt
    unfold burnengine_compute
    rw [if_neg hS, if_pos (⟨hAct, hlt⟩ :
      s.boostActive = true ∧ usub now s.boostStartMs < boostDurMs cfg)]
    exact ⟨rfl, rfl, rfl, rfl⟩
  · intro hge hcb hht hreq
    have hfire : ¬ usub now now ≥ coalbedRequiredMs cfg := by
      rw [usub_self]; omega
    have hfire2 : ¬ usub now now ≥ HOLD_STABILITY_MS := by
      rw [usub_self]; decide
    obtain ⟨bs, ba, bsm, ca, cs, hta, hsm, rta, rsm, dc⟩ := s
    dsimp only at hS hAct hcb hht
    subst hAct hcb hht
    unfold burnengine_compute
    rw [if_neg hS, if_neg (fun hp => absurd hp.2 (not_lt.mpr hge))]
    by_cases hlow : T < (cfg.flueLowThreshold : ℚ) <;>
      by_cases hband : (cfg.exhaustSetpoint : ℚ) - (cfg.deadbandF : ℚ) ≤ T <;>
        norm_num [coalbedEntry, normalStateMachine, hlow, hband, hfire, hfire2,
          burnengine_finalize_fst, ge_iff_le]

/-- C4 witness: a concrete open-window BOOST tick (1000 ms into a 30 s
boost) forcing phase BOOST and final fan 100, and a concrete expiry
tick (30000 ms, warm flue) closing the window into RAMP. -/
theorem claimC4_witness :
    usub 1000 0 < boostDurMs cfgDefault ∧
    (burnengine_compute cfgDefault
      (BEState.mk BurnState.BURN_BOOST true 0 false 0 false 0 false 0 false)
      1000 330).1.burnState = BurnState.BURN_BOOST ∧
    (fan_compute cfgDefault
      (burnengine_compute cfgDefault
        (BEState.mk BurnState.BURN_BOOST true 0 false 0 false 0 false 0 false)
        1000 330).1.burnState
      (FCState.mk 0 false BurnState.BURN_RAMP)
      (burnengine_compute cfgDefault
        (BEState.mk BurnState.BURN_BOOST true 0 false 0 false 0 false 0 false)
        1000 330).2).2 = 100 ∧
    (burnengine_compute cfgDefault
      (BEState.mk BurnState.BURN_BOOST true 0 false 0 false 0 false 0 false)
      30000 330).1.boostActive = false ∧
    (burnengine_compute cfgDefault
      (BEState.mk BurnState.BURN_BOOST true 0 false 0 false 0 false 0 false)
      30000 330).1.burnState = BurnState.BURN_RAMP := by
  have ha := (claimC4_amended cfgDefault
    (BEState.mk BurnState.BURN_BOOST true 0 false 0 false 0 false 0 false)
    1000 330 (FCState.mk 0 false BurnState.BURN_RAMP) (by decide) rfl).1 (by decide)
  have hb := (claimC4_amended cfgDefault
    (BEState.mk BurnState.BURN_BOOST true 0 false 0 false 0 false 0 false)
    30000 330 (FCState.mk 0 false BurnState.BURN_RAMP) (by decide) rfl).2
    (by decide) rfl rfl (by decide)
  exact ⟨by decide, ha.1, ha.2.2.2, hb.1, hb.2⟩

-- ------------------------------------------------------------
-- C5: coal-bed entry
-- ------------------------------------------------------------

/-- Outside SAFETY and outside an open boost window,
`burnengine_compute` is the composition of the boost-expiry update,
the coal-bed entry logic, the normal state machine and the
damper/demand finalization. -/
theorem burnengine_compute_normal (cfg : Config) (s : BEState) (now : Nat) (T : ℚ)
    (hS : s.burnState ≠ BurnState.BURN_SAFETY)
    (hB : ¬(s.boostActive = true ∧ usub now s.boostStartMs < boostDurMs cfg)) :
    burnengine_compute cfg s now T
      = burnengine_finalize cfg
          (normalStateMachine cfg
            (coalbedEntry cfg
              (if s.boostActive = true
               then { s with boostActive := false, burnState := BurnState.BURN_RAMP }
               else s) now T) now T) T := by
  unfold burnengine_compute
  rw [if_neg hS, if_neg hB]

/-- The normal state machine never touches the coal-bed timer or the
boost window. -/
theorem nsm_preserves (cfg : Config) (s : BEState) (now : Nat) (T : ℚ) :
    (normalStateMachine cfg s now T).coalbedTimerActive = s.coalbedTimerActive ∧
    (normalStateMachine cfg s now T).coalbedStartMs = s.coalbedStartMs ∧
    (normalStateMachine cfg s now T).boostActive = s.boostActive ∧
    (normalStateMachine cfg s now T).boostStartMs = s.boostStartMs := by
  obtain ⟨bs, ba, bsm, ca, cs, hta, hsm, rta, rsm, dc⟩ := s
  cases bs <;> dsimp only [normalStateMachine] <;> (try split_ifs) <;> simp

/-- Coal-bed entry, firing case: temperature below the flue-low
threshold and the (running or freshly started) timer past the
configured duration. -/
theorem coalbedEntry_fire (cfg : Config) (s : BEState) (now : Nat) (T : ℚ)
    (hlow : T < (cfg.flueLowThreshold : ℚ))
    (hfire : usub now (if s.coalbedTimerActive then s.coalbedStartMs else now)
      ≥ coalbedRequiredMs cfg) :
    coalbedEntry cfg s now T
      = { s with burnState := BurnState.BURN_COALBED,
                 coalbedTimerActive := false,
                 coalbedStartMs := if s.coalbedTimerActive then s.coalbedStartMs else now,
                 holdTimerActive := false, rampTimerActive := false } := by
  obtain ⟨bs, ba, bsm, ca, cs, hta, hsm, rta, rsm, dc⟩ := s
  dsimp only at hfire ⊢
  unfold coalbedEntry
  rw [if_pos hlow]
  dsimp only
  cases ca
  · norm_num at hfire ⊢
    exact hfire
  · norm_num at hfire ⊢
    exact hfire

/-- Coal-bed entry, running case: below threshold, duration not yet
reached; the timer keeps (or takes) its start. -/
theorem coalbedEntry_run (cfg : Config) (s : BEState) (now : Nat) (T : ℚ)
    (hlow : T < (cfg.flueLowThreshold : ℚ))
    (hnofire : ¬ usub now (if s.coalbedTimerActive then s.coalbedStartMs else now)
      ≥ coalbedRequiredMs cfg) :
    coalbedEntry cfg s now T
      = { s with coalbedTimerActive := true,
                 coalbedStartMs := if s.coalbedTimerActive then s.coalbedStartMs else now } := by
  obtain ⟨bs, ba, bsm, ca, cs, hta, hsm, rta, rsm, dc⟩ := s
  dsimp only at hnofire ⊢
  unfold coalbedEntry
  rw [if_pos hlow]
  dsimp only
  cases ca
  · norm_num at hnofire ⊢
    exact hnofire
  · norm_num at hnofire ⊢
    exact hnofire

/-- Coal-bed entry, cancellation case: at or above the threshold the
timer is cleared. -/
theorem coalbedEntry_cancel (cfg : Config) (s : BEState) (now : Nat) (T : ℚ)
    (hhigh : ¬ T < (cfg.flueLowThreshold : ℚ)) :
    coalbedEntry cfg s now T = { s with coalbedTimerActive := false } := by
  unfold coalbedEntry
  rw [if_neg hhigh]

/-- In COALBED with the temperature not above `setpoint − deadband`,
the normal state machine does nothing. -/
theorem nsm_coalbed_noexit (cfg : Config) (s : BEState) (now : Nat) (T : ℚ)
    (h : s.burnState = BurnState.BURN_COALBED)
    (hexit : ¬ (cfg.exhaustSetpoint : ℚ) - (cfg.deadbandF : ℚ) < T) :
    normalStateMachine cfg s now T = s := by
  obtain ⟨bs, ba, bsm, ca, cs, hta, hsm, rta, rsm, dc⟩ := s
  dsimp only at h
  subst h
  dsimp only [normalStateMachine]
  rw [if_neg hexit]

/-- C5 counterexample: with `flueLowThreshold = 500` and
`setpoint − deadband = 175` (both values inside the documented UI
bounds), a HOLD tick at temperature 300 whose coal-bed timer has run
for the full 30 minutes does NOT end in phase COALBED: the COALBED
exit check runs on the same tick (300 > 175) and the tick ends in
RAMP. -/
theorem claimC5_counterexample : ¬ ClaimC5AsStated := by
  intro h
  have h2 := h cfgC5
    (BEState.mk BurnState.BURN_HOLD false 0 true 0 false 0 false 0 false)
    1800000 300 (by decide) (by decide) (by norm_num [cfgC5, cfgDefault]) rfl
    (by decide)
  have hR : (burnengine_compute cfgC5
      (BEState.mk BurnState.BURN_HOLD false 0 true 0 false 0 false 0 false)
      1800000 300).1.burnState = BurnState.BURN_RAMP := by
    norm_num [burnengine_compute, coalbedEntry, normalStateMachine,
      burnengine_finalize, cfgC5, cfgDefault, usub, boostDurMs,
      coalbedRequiredMs, toUL]
    decide
  rw [h2.1] at hR
  exact absurd hR (by decide)

/-- C5 amended: on every tick outside SAFETY and outside an open boost
window, if the smoothed temperature is below `flueLowThreshold` the
coal-bed entry timer runs (keeping its start, or starting now); once
the running timer's elapsed time reaches the configured duration the
phase is forcibly set to COALBED with the HOLD and RAMP stability
timers cleared — and the tick ends in COALBED provided the smoothed
temperature does not also exceed `setpoint − deadband`, which would
trigger the immediate COALBED exit on the same tick; and on any tick
at or above the threshold the timer is cancelled. -/
theorem claimC5_amended (cfg : Config) (s : BEState) (now : Nat) (T : ℚ)
    (hS : s.burnState ≠ BurnState.BURN_SAFETY)
    (hB : ¬(s.boostActive = true ∧ usub now s.boostStartMs < boostDurMs cfg)) :
    (T < (cfg.flueLowThreshold : ℚ) →
      usub now (if s.coalbedTimerActive then s.coalbedStartMs else now)
          ≥ coalbedRequiredMs cfg →
      T ≤ (cfg.exhaustSetpoint : ℚ) - (cfg.deadbandF : ℚ) →
      (burnengine_compute cfg s now T).1.burnState = BurnState.BURN_COALBED ∧
      (burnengine_compute cfg s now T).1.holdTimerActive = false ∧
      (burnengine_compute cfg s now T).1.rampTimerActive = false ∧
      (burnengine_compute cfg s now T).1.coalbedTimerActive = false) ∧
    (T < (cfg.flueLowThreshold : ℚ) →
      ¬(usub now (if s.coalbedTimerActive then s.coalbedStartMs else now)
          ≥ coalbedRequiredMs cfg) →
      (burnengine_compute cfg s now T).1.coalbedTimerActive = true ∧
      (burnengine_compute cfg s now T).1.coalbedStartMs
        = (if s.coalbedTimerActive then s.coalbedStartMs else now)) ∧
    ((cfg.flueLowThreshold : ℚ) ≤ T →
      (burnengine_compute cfg s now T).1.coalbedTimerActive = false) := by
  rw [burnengine_compute_normal cfg s now T hS hB]
  by_cases hba : s.boostActive = true <;>
    [rw [if_pos hba]; rw [if_neg hba]] <;>
    refine ⟨?_, ?_, ?_⟩
  case pos.refine_1 | neg.refine_1 =>
    intro hlow hfire hnoexit
    rw [coalbedEntry_fire _ _ _ _ hlow (by exact hfire)]
    rw [nsm_coalbed_noexit _ _ _ _ rfl (not_lt.mpr hnoexit)]
    rw [burnengine_finalize_fst]
    exact ⟨rfl, rfl, rfl, rfl⟩
  case pos.refine_2 | neg.refine_2 =>
    intro hlow hnofire
    rw [coalbedEntry_run _ _ _ _ hlow (by exact hnofire)]
    rw [burnengine_finalize_fst]
    refine ⟨?_, ?_⟩
    · exact ((nsm_preserves cfg _ now T).1).trans rfl
    · exact ((nsm_preserves cfg _ now T).2.1).trans rfl
  case pos.refine_3 | neg.refine_3 =>
    intro hhigh
    rw [coalbedEntry_cancel _ _ _ _ (not_lt.mpr hhigh)]
    rw [burnengine_finalize_fst]
    exact ((nsm_preserves cfg _ now T).1).trans rfl

/-- C5 witness: at the defaults (flue-low 250, band 325), a RAMP tick
at temperature 200 whose coal-bed timer has run 30 minutes ends in
COALBED with HOLD and RAMP timers cleared. -/
theorem claimC5_witness :
    ((200 : ℚ) < ((cfgDefault.flueLowThreshold : Int) : ℚ)) ∧
    (burnengine_compute cfgDefault
      (BEState.mk BurnState.BURN_RAMP false 0 true 0 false 0 false 0 false)
      1800000 200).1.burnState = BurnState.BURN_COALBED ∧
    (burnengine_compute cfgDefault
      (BEState.mk BurnState.BURN_RAMP false 0 true 0 false 0 false 0 false)
      1800000 200).1.holdTimerActive = false := by
  have h := (claimC5_amended cfgDefault
    (BEState.mk BurnState.BURN_RAMP false 0 true 0 false 0 false 0 false)
    1800000 200 (by decide) (by decide)).1
    (by norm_num [cfgDefault]) (by decide) (by norm_num [cfgDefault])
  exact ⟨by norm_num [cfgDefault], h.1, h.2.1⟩

-- ------------------------------------------------------------
-- C8: sensor sample rejection
-- ------------------------------------------------------------

/-- C8: a hardware read that signals a fault, decodes to a temperature
outside −100°F…2000°F, or differs from the previously accepted cached
value by more than 150°F, never updates the cached raw value, and the
call returns the last accepted value unchanged. -/
theorem claimC8 (s : SensorState) (now : Nat) (raw : Nat)
    (hrej : raw &&& 0x10000 ≠ 0 ∨
            max31855tempF raw < -100 ∨ max31855tempF raw > 2000 ∨
            (∃ t last, readMAX31855_F raw = some t ∧ s.lastTCValueF = some last ∧
              |t - last| > 150)) :
    (exhaust_readF_cached s now raw).1.lastTCValueF = s.lastTCValueF ∧
    (exhaust_readF_cached s now raw).2 = s.lastTCValueF := by
  unfold exhaust_readF_cached
  by_cases hc : usub now s.lastTCRead ≥ 500
  · rw [if_pos hc]
    dsimp only
    rcases hrej with hf | hlo | hhi | ⟨t, last, hdec, hlast, hspike⟩
    · have hnone : readMAX31855_F raw = none := by
        unfold readMAX31855_F
        rw [if_pos hf]
      rw [hnone]
      exact ⟨rfl, rfl⟩
    · have hnone : readMAX31855_F raw = none := by
        unfold readMAX31855_F
        split
        · rfl
        · rw [if_pos (Or.inl hlo)]
      rw [hnone]
      exact ⟨rfl, rfl⟩
    · have hnone : readMAX31855_F raw = none := by
        unfold readMAX31855_F
        split
        · rfl
        · rw [if_pos (Or.inr hhi)]
      rw [hnone]
      exact ⟨rfl, rfl⟩
    · rw [hdec]
      dsimp only
      rw [show ({ s with lastTCRead := now } : SensorState).lastTCValueF
            = some last from hlast]
      dsimp only
      rw [if_pos hspike]
      exact ⟨hlast.symm ▸ rfl, hlast.symm ▸ rfl⟩
  · rw [if_neg hc]
    exact ⟨rfl, rfl⟩

/-- C8 witness: the frame encoding thermocouple data 4818 (2200.1°F,
200°F above range) is rejected and leaves the cached value 300°F in
place, returning 300°F. -/
theorem claimC8_witness :
    max31855tempF 1263009792 > 2000 ∧
    (exhaust_readF_cached (SensorState.mk 0 (some 300)) 500 1263009792).1.lastTCValueF
      = some 300 ∧
    (exhaust_readF_cached (SensorState.mk 0 (some 300)) 500 1263009792).2
      = some 300 := by
  have hhi : max31855tempF 1263009792 > 2000 := by
    rw [max31855tempF, show max31855tcData 1263009792 = 4818 from by decide]
    norm_num
  have h := claimC8 (SensorState.mk 0 (some 300)) 500 1263009792
    (Or.inr (Or.inr (Or.inl hhi)))
  exact ⟨hhi, h.1, h.2⟩

-- ------------------------------------------------------------
-- C9: configuration invariants
-- ------------------------------------------------------------

theorem toInt16_eq_self (x : Int) (h1 : -32768 ≤ x) (h2 : x ≤ 32767) :
    toInt16 x = x := by
  unfold toInt16
  omega

theorem uiClamp_mem (lo hi v : Int) (h : lo ≤ hi) :
    lo ≤ uiClamp lo hi v ∧ uiClamp lo hi v ≤ hi := by
  unfold uiClamp
  dsimp only
  split_ifs <;> omega

/-- After `validateSettings`, clamp-minimum never exceeds
clamp-maximum. -/
theorem validate_clampInv (c : Config) :
    (validateSettings c).clampMinPercent ≤ (validateSettings c).clampMaxPercent := by
  unfold validateSettings
  simp only [apply_ite Config.clampMinPercent, apply_ite Config.clampMaxPercent,
    ite_self]
  split_ifs <;> omega

/-- After `validateSettings`, the flue-recovery threshold is at least
the flue-low threshold plus 10. -/
theorem validate_flueInv (c : Config) :
    (validateSettings c).flueLowThreshold + 10
      ≤ (validateSettings c).flueRecoveryThreshold := by
  unfold validateSettings
  simp only [apply_ite Config.flueLowThreshold,
    apply_ite Config.flueRecoveryThreshold, ite_self]
  split_ifs <;> omega

set_option maxRecDepth 8000 in
/-- C9: after initialization and after every parameter-edit command
(each UI commit together with its eeprom save and validation) the
configuration satisfies `clampMin ≤ clampMax` and
`flueRecovery ≥ flueLow + 10`; an edit that would break an inequality
is repaired rather than rejected: a clamp-max edit is accepted
(normalized into 0-100) and clamp-minimum is lowered to match if
needed, and a flue-low edit is accepted (normalized into 200-500) with
the recovery threshold pushed back above it by the invariant. -/
theorem claimC9 :
    (∀ (loaded : Config) (b : Bool), ConfigInvariant (eeprom_init loaded b)) ∧
    (∀ c v, ConfigInvariant (ui_commitSetpoint c v)) ∧
    (∀ c v, ConfigInvariant (ui_commitBoostTime c v)) ∧
    (∀ c v, ConfigInvariant (ui_commitDeadband c v)) ∧
    (∀ c v, ConfigInvariant (ui_commitClampMin c v)) ∧
    (∀ c v, ConfigInvariant (ui_commitClampMax c v)) ∧
    (∀ c, ConfigInvariant (ui_commitDeadzoneToggle c)) ∧
    (∀ c v, ConfigInvariant (ui_commitCoalBedTimer c v)) ∧
    (∀ c v, ConfigInvariant (ui_commitFlueLow c v)) ∧
    (∀ c v, ConfigInvariant (ui_commitFlueRec c v)) ∧
    (∀ c v, 0 ≤ c.clampMinPercent → c.clampMinPercent ≤ 100 →
      (ui_commitClampMax c v).clampMaxPercent = uiClamp 0 100 v ∧
      (ui_commitClampMax c v).clampMinPercent
        = minI c.clampMinPercent (uiClamp 0 100 v)) ∧
    (∀ c v, (ui_commitFlueLow c v).flueLowThreshold = uiClamp 200 500 v) := by
  have hv : ∀ c : Config, ConfigInvariant (validateSettings c) :=
    fun c => ⟨validate_clampInv c, validate_flueInv c⟩
  refine ⟨?_, fun c v => hv _, fun c v => hv _, fun c v => hv _, fun c v => hv _,
    fun c v => hv _, fun c => hv _, fun c v => hv _, fun c v => hv _,
    fun c v => hv _, ?_, ?_⟩
  · intro loaded b
    cases b
    · exact hv (validateSettings cfgDefault)
    · exact hv (validateSettings loaded)
  · intro c v h0 h100
    have hw := uiClamp_mem 0 100 v (by norm_num)
    unfold ui_commitClampMax
    rw [toInt16_eq_self _ (by omega) (by omega)]
    unfold validateSettings minI
    simp only [apply_ite Config.clampMinPercent, apply_ite Config.clampMaxPercent,
      ite_self]
    constructor
    · split_ifs <;> omega
    · split_ifs <;> omega
  · intro c v
    have hw := uiClamp_mem 200 500 v (by norm_num)
    unfold ui_commitFlueLow
    rw [toInt16_eq_self _ (by omega) (by omega)]
    unfold validateSettings
    simp only [apply_ite Config.flueLowThreshold, ite_self]
    split_ifs <;> omega

/-- C9 witness for its conditional part: from the default
configuration (clampMin 10), entering clamp-max 5 keeps the entered
value and lowers clamp-minimum to 5. -/
theorem claimC9_witness :
    ((0 : Int) ≤ cfgDefault.clampMinPercent ∧ cfgDefault.clampMinPercent ≤ 100) ∧
    (ui_commitClampMax cfgDefault 5).clampMaxPercent = uiClamp 0 100 5 ∧
    (ui_commitClampMax cfgDefault 5).clampMinPercent
      = minI cfgDefault.clampMinPercent (uiClamp 0 100 5) := by
  have h := claimC9.2.2.2.2.2.2.2.2.2.2.1 cfgDefault 5 (by decide) (by decide)
  exact ⟨⟨by decide, by decide⟩, h.1, h.2⟩

-- ------------------------------------------------------------
-- C3: the RAMP → HOLD stability window
-- ------------------------------------------------------------

/-- In COALBED with the temperature above `setpoint − deadband`, the
normal state machine exits to RAMP, clearing both stability timers. -/
theorem nsm_coalbed_exit (cfg : Config) (s : BEState) (now : Nat) (T : ℚ)
    (h : s.burnState = BurnState.BURN_COALBED)
    (hexit : (cfg.exhaustSetpoint : ℚ) - (cfg.deadbandF : ℚ) < T) :
    normalStateMachine cfg s now T
      = { s with burnState := BurnState.BURN_RAMP,
                 holdTimerActive := false, rampTimerActive := false } := by
  obtain ⟨bs, ba, bsm, ca, cs, hta, hsm, rta, rsm, dc⟩ := s
  dsimp only at h
  subst h
  dsimp only [normalStateMachine]
  rw [if_pos hexit]

/-- The RAMP branch of the normal state machine, characterized: on an
in-band tick the HOLD timer continues (firing into HOLD once its
5000 ms have elapsed) or starts fresh; on an out-of-band tick it is
cancelled.  A freshly started timer cannot fire on its starting tick. -/
theorem nsm_ramp (cfg : Config) (u : BEState) (now : Nat) (T : ℚ)
    (hR : u.burnState = BurnState.BURN_RAMP) :
    normalStateMachine cfg u now T
      = if T ≥ (cfg.exhaustSetpoint : ℚ) - (cfg.deadbandF : ℚ) then
          (if u.holdTimerActive = true then
            (if usub now u.holdStartMs ≥ HOLD_STABILITY_MS then
              { u with burnState := BurnState.BURN_HOLD, holdTimerActive := false }
            else u)
          else { u with holdTimerActive := true, holdStartMs := now })
        else { u with holdTimerActive := false } := by
  obtain ⟨bs, ba, bsm, ca, cs, hta, hsm, rta, rsm, dc⟩ := u
  dsimp only at hR
  subst hR
  dsimp only [normalStateMachine]
  cases hta
  · by_cases hband : T ≥ (cfg.exhaustSetpoint : ℚ) - (cfg.deadbandF : ℚ)
    · rw [if_pos hband, if_pos hband]
      norm_num
      rw [usub_self]
      decide
    · rw [if_neg hband, if_neg hband]
  · by_cases hband : T ≥ (cfg.exhaustSetpoint : ℚ) - (cfg.deadbandF : ℚ)
    · rw [if_pos hband, if_pos hband]
      norm_num
    · rw [if_neg hband, if_neg hband]

/-- One tick from a RAMP state with the boost window closed: the boost
window stays closed, and the HOLD timer/phase evolves in exactly one
of four ways — (1) the tick ends with the timer clear and the phase
not HOLD (coal-bed override or out-of-band cancellation), (2) the
running timer continues unchanged on an in-band tick, (3) the timer
starts on this in-band tick, or (4) the running timer fires: the phase
becomes HOLD, on an in-band tick, with at least `HOLD_STABILITY_MS`
elapsed (mod 2^32) since the timer's start. -/
theorem step_from_ramp (cfg : Config) (s : BEState) (now : Nat) (T : ℚ)
    (hR : s.burnState = BurnState.BURN_RAMP) (hb : s.boostActive = false) :
    (burnengine_compute cfg s now T).1.boostActive = false ∧
    (((burnengine_compute cfg s now T).1.holdTimerActive = false ∧
      (burnengine_compute cfg s now T).1.burnState ≠ BurnState.BURN_HOLD) ∨
     (s.holdTimerActive = true ∧
      (burnengine_compute cfg s now T).1.holdTimerActive = true ∧
      (burnengine_compute cfg s now T).1.holdStartMs = s.holdStartMs ∧
      (burnengine_compute cfg s now T).1.burnState = BurnState.BURN_RAMP ∧
      T ≥ (cfg.exhaustSetpoint : ℚ) - (cfg.deadbandF : ℚ)) ∨
     ((burnengine_compute cfg s now T).1.holdTimerActive = true ∧
      (burnengine_compute cfg s now T).1.holdStartMs = now ∧
      (burnengine_compute cfg s now T).1.burnState = BurnState.BURN_RAMP ∧
      T ≥ (cfg.exhaustSetpoint : ℚ) - (cfg.deadbandF : ℚ)) ∨
     (s.holdTimerActive = true ∧
      (burnengine_compute cfg s now T).1.burnState = BurnState.BURN_HOLD ∧
      (burnengine_compute cfg s now T).1.holdTimerActive = false ∧
      T ≥ (cfg.exhaustSetpoint : ℚ) - (cfg.deadbandF : ℚ) ∧
      usub now s.holdStartMs ≥ HOLD_STABILITY_MS)) := by
  have hS' : s.burnState ≠ BurnState.BURN_SAFETY := by rw [hR]; decide
  have hB' : ¬(s.boostActive = true ∧ usub now s.boostStartMs < boostDurMs cfg) := by
    rw [hb]
    rintro ⟨h, _⟩
    exact absurd h (by decide)
  rw [burnengine_compute_normal cfg s now T hS' hB']
  rw [if_neg (show ¬ s.boostActive = true by rw [hb]; decide)]
  by_cases hlow : T < (cfg.flueLowThreshold : ℚ)
  · by_cases hfire : usub now (if s.coalbedTimerActive then s.coalbedStartMs else now)
      ≥ coalbedRequiredMs cfg
    · rw [coalbedEntry_fire cfg s now T hlow hfire]
      by_cases hexit : (cfg.exhaustSetpoint : ℚ) - (cfg.deadbandF : ℚ) < T
      · rw [nsm_coalbed_exit cfg _ now T rfl hexit, burnengine_finalize_fst]
        refine ⟨hb, Or.inl ⟨rfl, ?_⟩⟩
        dsimp only
        simp
      · rw [nsm_coalbed_noexit cfg _ now T rfl hexit, burnengine_finalize_fst]
        refine ⟨hb, Or.inl ⟨rfl, ?_⟩⟩
        dsimp only
        simp
    · rw [coalbedEntry_run cfg s now T hlow hfire]
      rw [nsm_ramp cfg
        { s with coalbedTimerActive := true,
                 coalbedStartMs := if s.coalbedTimerActive then s.coalbedStartMs else now }
        now T hR]
      dsimp only
      by_cases hband : T ≥ (cfg.exhaustSetpoint : ℚ) - (cfg.deadbandF : ℚ)
      · rw [if_pos hband]
        by_cases hta : s.holdTimerActive = true
        · rw [if_pos hta]
          by_cases htime : usub now s.holdStartMs ≥ HOLD_STABILITY_MS
          · rw [if_pos htime, burnengine_finalize_fst]
            exact ⟨hb, Or.inr (Or.inr (Or.inr ⟨hta, rfl, rfl, hband, htime⟩))⟩
          · rw [if_neg htime, burnengine_finalize_fst]
            exact ⟨hb, Or.inr (Or.inl ⟨hta, hta, rfl, hR, hband⟩)⟩
        · rw [if_neg hta, burnengine_finalize_fst]
          exact ⟨hb, Or.inr (Or.inr (Or.inl ⟨rfl, rfl, hR, hband⟩))⟩
      · rw [if_neg hband, burnengine_finalize_fst]
        exact ⟨hb, Or.inl ⟨rfl, fun hh => absurd (hR.symm.trans hh) (by decide)⟩⟩
  · rw [coalbedEntry_cancel cfg s now T hlow]
    rw [nsm_ramp cfg { s with coalbedTimerActive := false } now T hR]
    dsimp only
    by_cases hband : T ≥ (cfg.exhaustSetpoint : ℚ) - (cfg.deadbandF : ℚ)
    · rw [if_pos hband]
      by_cases hta : s.holdTimerActive = true
      · rw [if_pos hta]
        by_cases htime : usub now s.holdStartMs ≥ HOLD_STABILITY_MS
        · rw [if_pos htime, burnengine_finalize_fst]
          exact ⟨hb, Or.inr (Or.inr (Or.inr ⟨hta, rfl, rfl, hband, htime⟩))⟩
        · rw [if_neg htime, burnengine_finalize_fst]
          exact ⟨hb, Or.inr (Or.inl ⟨hta, hta, rfl, hR, hband⟩)⟩
      · rw [if_neg hta, burnengine_finalize_fst]
        exact ⟨hb, Or.inr (Or.inr (Or.inl ⟨rfl, rfl, hR, hband⟩))⟩
    · rw [if_neg hband, burnengine_finalize_fst]
      exact ⟨hb, Or.inl ⟨rfl, fun hh => absurd (hR.symm.trans hh) (by decide)⟩⟩

theorem burnengine_run_append (cfg : Config) (s : BEState)
    (l : List (Nat × ℚ)) (e : Nat × ℚ) :
    burnengine_run cfg s (l ++ [e])
      = (burnengine_compute cfg (burnengine_run cfg s l) e.1 e.2).1 := by
  unfold burnengine_run
  rw [List.foldl_append]
  rfl

/-- Trace invariant behind C3: along any run of ticks that starts in
RAMP with a clear HOLD timer and a closed boost window and stays in
RAMP, the boost window stays closed, and whenever the HOLD timer is
active its start equals the timestamp of some earlier tick from which
every tick up to now (inclusive) was in band. -/
theorem holdTimer_window (cfg : Config) (s0 : BEState)
    (hb : s0.boostActive = false) (h1 : s0.holdTimerActive = false) :
    ∀ l : List (Nat × ℚ),
      (∀ l1 l2, l = l1 ++ l2 →
        (burnengine_run cfg s0 l1).burnState = BurnState.BURN_RAMP) →
      (burnengine_run cfg s0 l).boostActive = false ∧
      ((burnengine_run cfg s0 l).holdTimerActive = true →
        ∃ l1 t0 T0 l2, l = l1 ++ (t0, T0) :: l2 ∧
          (burnengine_run cfg s0 l).holdStartMs = t0 ∧
          ∀ p ∈ (t0, T0) :: l2,
            p.2 ≥ (cfg.exhaustSetpoint : ℚ) - (cfg.deadbandF : ℚ)) := by
  intro l
  induction l using List.reverseRecOn with
  | nil =>
    intro _
    refine ⟨hb, fun h => ?_⟩
    rw [show burnengine_run cfg s0 [] = s0 from rfl, h1] at h
    exact absurd h (by decide)
  | append_singleton l e ih =>
    intro hramp
    have hrampl : ∀ l1 l2, l = l1 ++ l2 →
        (burnengine_run cfg s0 l1).burnState = BurnState.BURN_RAMP := by
      intro l1 l2 hl
      exact hramp l1 (l2 ++ [e]) (by rw [hl, List.append_assoc])
    obtain ⟨hbl, hwin⟩ := ih hrampl
    have hRl : (burnengine_run cfg s0 l).burnState = BurnState.BURN_RAMP :=
      hramp l [e] rfl
    have hstep := step_from_ramp cfg (burnengine_run cfg s0 l) e.1 e.2 hRl hbl
    rw [burnengine_run_append]
    refine ⟨hstep.1, ?_⟩
    rcases hstep.2 with ⟨hto, _⟩ |
      ⟨hac, hta', hstart, _, hband⟩ | ⟨hta', hstart, _, hband⟩ | ⟨_, hbsH, _, _, _⟩
    · intro h
      rw [hto] at h
      exact absurd h (by decide)
    · intro _
      obtain ⟨l1, t0, T0, l2, hdec, hsms, hall⟩ := hwin hac
      refine ⟨l1, t0, T0, l2 ++ [e], ?_, ?_, ?_⟩
      · rw [hdec]
        simp
      · rw [hstart, hsms]
      · intro p hp
        rcases List.mem_cons.mp hp with h | h
        · exact h ▸ hall (t0, T0) (List.mem_cons_self _ _)
        · rcases List.mem_append.mp h with h' | h'
          · exact hall p (List.mem_cons_of_mem _ h')
          · rw [List.mem_singleton.mp h']
            exact hband
    · intro _
      refine ⟨l, e.1, e.2, [], by simp, hstart, ?_⟩
      intro p hp
      rw [List.mem_singleton.mp hp]
      exact hband
    · have hfull := hramp (l ++ [e]) [] (by simp)
      rw [burnengine_run_append] at hfull
      rw [hfull] at hbsH
      exact absurd hbsH (by decide)

/-- C3: starting from phase RAMP with a clear HOLD timer and the boost
window closed, along any run of ticks with monotone timestamps below
2^32 that remains in RAMP, if the final tick makes the phase HOLD then
there is a tick from which the smoothed temperature was at or above
`setpoint − deadband` on every tick through the transition tick, and
the transition tick comes at least 5000 ms after that tick: the
transition never occurs before an unbroken 5000 ms in-band window, and
any out-of-band tick cancels the timer (forcing a fresh window). -/
theorem claimC3 (cfg : Config) (s0 : BEState) (l : List (Nat × ℚ)) (e : Nat × ℚ)
    (h0 : s0.burnState = BurnState.BURN_RAMP)
    (h1 : s0.holdTimerActive = false)
    (h2 : s0.boostActive = false)
    (hmono : (l ++ [e]).Pairwise (fun p q => p.1 ≤ q.1))
    (hbound : ∀ p ∈ l ++ [e], p.1 < 2 ^ 32)
    (hramp : ∀ l1 l2, l = l1 ++ l2 →
      (burnengine_run cfg s0 l1).burnState = BurnState.BURN_RAMP)
    (hHOLD : (burnengine_run cfg s0 (l ++ [e])).burnState = BurnState.BURN_HOLD) :
    ∃ l1 t0 T0 l2, l = l1 ++ (t0, T0) :: l2 ∧
      (∀ p ∈ (t0, T0) :: (l2 ++ [e]),
        p.2 ≥ (cfg.exhaustSetpoint : ℚ) - (cfg.deadbandF : ℚ)) ∧
      t0 + 5000 ≤ e.1 := by
  have hRl : (burnengine_run cfg s0 l).burnState = BurnState.BURN_RAMP :=
    hramp l [] (by simp)
  obtain ⟨hbl, hwin⟩ := holdTimer_window cfg s0 h2 h1 l hramp
  rw [burnengine_run_append] at hHOLD
  have hstep := step_from_ramp cfg (burnengine_run cfg s0 l) e.1 e.2 hRl hbl
  rcases hstep.2 with ⟨_, hneq⟩ |
    ⟨_, _, _, hbs, _⟩ | ⟨_, _, hbs, _⟩ | ⟨hac, _, _, hband, htime⟩
  · exact absurd hHOLD hneq
  · rw [hbs] at hHOLD
    exact absurd hHOLD (by decide)
  · rw [hbs] at hHOLD
    exact absurd hHOLD (by decide)
  · obtain ⟨l1, t0, T0, l2, hdec, hsms, hall⟩ := hwin hac
    refine ⟨l1, t0, T0, l2, hdec, ?_, ?_⟩
    · intro p hp
      rcases List.mem_cons.mp hp with h | h
      · exact h ▸ hall (t0, T0) (List.mem_cons_self _ _)
      · rcases List.mem_append.mp h with h' | h'
        · exact hall p (List.mem_cons_of_mem _ h')
        · rw [List.mem_singleton.mp h']
          exact hband
    · rw [hsms] at htime
      have hmem : (t0, T0) ∈ l := by
        rw [hdec]
        simp
      have ht0e : t0 ≤ e.1 :=
        (List.pairwise_append.mp hmono).2.2 (t0, T0) hmem e (by simp)
      have hee : e.1 < 2 ^ 32 := hbound e (by simp)
      rw [usub_eq_sub e.1 t0 ht0e hee] at htime
      rw [show HOLD_STABILITY_MS = 5000 from rfl] at htime
      omega

/-- C3 witness: at the defaults (setpoint 350, deadband 25), a RAMP
run holding 330°F at t = 0 ms and t = 5000 ms transitions to HOLD on
the 5000 ms tick, and the theorem exhibits the unbroken in-band window
starting at t = 0. -/
theorem claimC3_witness :
    ((BEState.mk BurnState.BURN_RAMP false 0 false 0 false 0 false 0 false).burnState
      = BurnState.BURN_RAMP) ∧
    (burnengine_run cfgDefault
      (BEState.mk BurnState.BURN_RAMP false 0 false 0 false 0 false 0 false)
      ([((0 : Nat), (330 : ℚ))] ++ [((5000 : Nat), (330 : ℚ))])).burnState
      = BurnState.BURN_HOLD ∧
    ∃ l1 t0 T0 l2, [((0 : Nat), (330 : ℚ))] = l1 ++ (t0, T0) :: l2 ∧
      (∀ p ∈ (t0, T0) :: (l2 ++ [((5000 : Nat), (330 : ℚ))]),
        p.2 ≥ (cfgDefault.exhaustSetpoint : ℚ) - (cfgDefault.deadbandF : ℚ)) ∧
      t0 + 5000 ≤ ((5000 : Nat), (330 : ℚ)).1 := by
  have hstep1 : (burnengine_run cfgDefault
      (BEState.mk BurnState.BURN_RAMP false 0 false 0 false 0 false 0 false)
      [((0 : Nat), (330 : ℚ))])
      = BEState.mk BurnState.BURN_RAMP false 0 false 0 true 0 false 0 false := by
    show (burnengine_compute cfgDefault
      (BEState.mk BurnState.BURN_RAMP false 0 false 0 false 0 false 0 false)
      0 330).1 = _
    norm_num [burnengine_compute, coalbedEntry, normalStateMachine,
      burnengine_finalize, cfgDefault, usub, boostDurMs, coalbedRequiredMs,
      toUL, HOLD_STABILITY_MS]
    decide
  have hHOLD : (burnengine_run cfgDefault
      (BEState.mk BurnState.BURN_RAMP false 0 false 0 false 0 false 0 false)
      ([((0 : Nat), (330 : ℚ))] ++ [((5000 : Nat), (330 : ℚ))])).burnState
      = BurnState.BURN_HOLD := by
    rw [burnengine_run_append, hstep1]
    norm_num [burnengine_compute, coalbedEntry, normalStateMachine,
      burnengine_finalize, cfgDefault, usub, boostDurMs, coalbedRequiredMs,
      toUL, HOLD_STABILITY_MS]
    decide
  refine ⟨rfl, hHOLD, ?_⟩
  refine claimC3 cfgDefault _ _ _ rfl rfl rfl ?_ ?_ ?_ hHOLD
  · norm_num [List.pairwise_cons]
  · intro p hp
    rcases List.mem_cons.mp hp with h | h
    · rw [h]; norm_num
    · rw [List.mem_singleton.mp h]; norm_num
  · intro l1 l2 hl
    rcases l1 with _ | ⟨p, l1'⟩
    · exact rfl
    · have hp : p = ((0 : Nat), (330 : ℚ)) ∧ l1' ++ l2 = [] := by
        have := hl
        simp only [List.cons_append] at this
        exact ⟨((List.cons.injEq _ _ _ _).mp this).1.symm,
          ((List.cons.injEq _ _ _ _).mp this).2.symm⟩
      obtain ⟨rfl, htl⟩ := hp
      have hl1' : l1' = [] := (List.append_eq_nil.mp htl).1
      subst hl1'
      rw [show burnengine_run cfgDefault
        (BEState.mk BurnState.BURN_RAMP false 0 false 0 false 0 false 0 false)
        [((0 : Nat), (330 : ℚ))]
        = BEState.mk BurnState.BURN_RAMP false 0 false 0 true 0 false 0 false
        from hstep1]

/-- C10: the flue-recovery threshold has no effect on any output of the
core: replacing `flueRecoveryThreshold` by an arbitrary value changes
neither the result of `burnengine_compute` (phase, timers, damper, raw
demand) nor the result of `fan_compute` (memory, final percentage). -/
theorem claimC10 (cfg : Config) (r : Int) (s : BEState) (now : Nat) (T : ℚ)
    (bs : BurnState) (fs : FCState) (d : Int) :
    burnengine_compute { cfg with flueRecoveryThreshold := r } s now T
      = burnengine_compute cfg s now T ∧
    fan_compute { cfg with flueRecoveryThreshold := r } bs fs d
      = fan_compute cfg bs fs d := by
  cases cfg
  exact ⟨rfl, rfl⟩
